import Mathlib

/-!
Verification of the password strength analyzer
(`password_strength_analyzer/analyzer.py`).

The Python source is embedded shallowly:

* strings are `List Char` (the analyzer only manipulates ASCII data;
  `str.lower`/`str.upper`/`str.strip` are modelled by `Char.toLower`,
  `Char.toUpper` and `Char.isWhitespace`, which agree with Python on ASCII);
* floats are `ℚ` (all score increments are exact decimal literals, so no
  rounding behaviour of binary floats is observable at the granularity of the
  properties proved here);
* the network is an oracle `NetResponse` (a successful 2xx body, or any
  `URLError`/`HTTPError`/timeout failure);
* the cryptographically random suggestion generator is an oracle argument
  (an arbitrary list of suggestions);
* Python exceptions are `Except` values: `ValueError` from empty input,
  and the `ValueError` escaping the response parser.
-/

set_option maxRecDepth 400000

/-! ### SHA-1 (`hashlib.sha1(...).hexdigest().upper()`) -/

/-- Truncation to a 32-bit word. -/
def w32 (x : Nat) : Nat := x % 4294967296

/-- Left rotation of a 32-bit word by `b` bits. -/
def rotl32 (b x : Nat) : Nat := (w32 (x <<< b)) ||| (x >>> (32 - b))

/-- UTF-8 encoding of one code point (`str.encode("utf-8")`). -/
def utf8EncodeChar (c : Char) : List Nat :=
  let n := c.toNat
  if n < 128 then [n]
  else if n < 2048 then [192 ||| (n >>> 6), 128 ||| (n % 64)]
  else if n < 65536 then [224 ||| (n >>> 12), 128 ||| ((n >>> 6) % 64), 128 ||| (n % 64)]
  else [240 ||| (n >>> 18), 128 ||| ((n >>> 12) % 64), 128 ||| ((n >>> 6) % 64), 128 ||| (n % 64)]

/-- UTF-8 encoding of a string, as a byte list. -/
def utf8Encode (s : List Char) : List Nat := s.flatMap utf8EncodeChar

/-- SHA-1 padding: `0x80`, zeros to 56 mod 64, then the bit length big-endian. -/
def sha1Pad (msg : List Nat) : List Nat :=
  let z := (64 - ((msg.length + 9) % 64)) % 64
  msg ++ [128] ++ List.replicate z 0 ++
    (List.range 8).map (fun i => ((msg.length * 8) >>> (8 * (7 - i))) % 256)

/-- Big-endian 32-bit word `i` of a 64-byte block. -/
def beWord (bs : List Nat) (i : Nat) : Nat :=
  ((bs.getD (4 * i) 0) <<< 24) + ((bs.getD (4 * i + 1) 0) <<< 16) +
    ((bs.getD (4 * i + 2) 0) <<< 8) + bs.getD (4 * i + 3) 0

/-- The 16 message words of a block. -/
def blockWords (bs : List Nat) : List Nat := (List.range 16).map (beWord bs)

/-- Message-schedule extension: append `k` further words
`w[i] = rotl1 (w[i-3] xor w[i-8] xor w[i-14] xor w[i-16])`. -/
def extendWords : List Nat → Nat → List Nat
  | ws, 0 => ws
  | ws, k + 1 =>
    let i := ws.length
    extendWords
      (ws ++ [rotl32 1 (((ws.getD (i - 3) 0) ^^^ (ws.getD (i - 8) 0)) ^^^
        ((ws.getD (i - 14) 0) ^^^ (ws.getD (i - 16) 0)))]) k

/-- SHA-1 round function. -/
def sha1F (t b c d : Nat) : Nat :=
  if t < 20 then (b &&& c) ||| ((b ^^^ 4294967295) &&& d)
  else if t < 40 then (b ^^^ c) ^^^ d
  else if t < 60 then ((b &&& c) ||| (b &&& d)) ||| (c &&& d)
  else (b ^^^ c) ^^^ d

/-- SHA-1 round constants. -/
def sha1K (t : Nat) : Nat :=
  if t < 20 then 1518500249
  else if t < 40 then 1859775393
  else if t < 60 then 2400959708
  else 3395469782

/-- The five 32-bit chaining words `(a, b, c, d, e)`. -/
abbrev Sha1State := Nat × Nat × Nat × Nat × Nat

/-- One SHA-1 round, consuming `(t, w[t])`. -/
def sha1Step (st : Sha1State) (tw : Nat × Nat) : Sha1State :=
  (w32 (rotl32 5 st.1 + sha1F tw.1 st.2.1 st.2.2.1 st.2.2.2.1 + st.2.2.2.2 + sha1K tw.1 + tw.2),
    st.1, rotl32 30 st.2.1, st.2.2.1, st.2.2.2.1)

/-- SHA-1 compression of one 64-byte block. -/
def sha1Compress (h : Sha1State) (block : List Nat) : Sha1State :=
  let ws := extendWords (blockWords block) 64
  let f := ws.enum.foldl sha1Step h
  (w32 (h.1 + f.1), w32 (h.2.1 + f.2.1), w32 (h.2.2.1 + f.2.2.1),
    w32 (h.2.2.2.1 + f.2.2.2.1), w32 (h.2.2.2.2 + f.2.2.2.2))

/-- Compression over successive 64-byte blocks.  The first argument is the
number of blocks remaining (structural fuel; `sha1Words` passes the exact
block count of the padded message). -/
def sha1Blocks : Nat → Sha1State → List Nat → Sha1State
  | 0, h, _ => h
  | fuel + 1, h, l =>
    if l = [] then h else sha1Blocks fuel (sha1Compress h (l.take 64)) (l.drop 64)

/-- SHA-1 of a byte list, as the five final chaining words. -/
def sha1Words (msg : List Nat) : Sha1State :=
  let padded := sha1Pad msg
  sha1Blocks (padded.length / 64) (1732584193, 4023233417, 2562383102, 271733878, 3285377520)
    padded

/-- Uppercase hexadecimal digit of a nibble. -/
def hexUpper : Nat → Char
  | 0 => '0' | 1 => '1' | 2 => '2' | 3 => '3' | 4 => '4' | 5 => '5' | 6 => '6' | 7 => '7'
  | 8 => '8' | 9 => '9' | 10 => 'A' | 11 => 'B' | 12 => 'C' | 13 => 'D' | 14 => 'E' | 15 => 'F'
  | _ => '0'

/-- The eight uppercase hex digits of a 32-bit word, most significant first. -/
def wordHex (w : Nat) : List Char :=
  (List.range 8).map (fun i => hexUpper ((w >>> (4 * (7 - i))) % 16))

/-- `hashlib.sha1(password.encode("utf-8")).hexdigest().upper()`: the
40-character uppercase hex SHA-1 digest of a password. -/
def sha1HexUpper (p : List Char) : List Char :=
  let s := sha1Words (utf8Encode p)
  wordHex s.1 ++ wordHex s.2.1 ++ wordHex s.2.2.1 ++ wordHex s.2.2.2.1 ++ wordHex s.2.2.2.2

/-- The sixteen uppercase hexadecimal digits. -/
def hexDigits : List Char := "0123456789ABCDEF".toList

/-- Whether a character is an uppercase hexadecimal digit. -/
def isHexB (c : Char) : Bool := hexDigits.contains c

/-! ### The outbound HIBP request (`_hibp_lookup`, request construction) -/

/-- The fixed part of the range-query URL. -/
def hibpBaseUrl : List Char := "https://api.pwnedpasswords.com/range/".toList

/-- The full request URL: base URL followed by the first five hex digits of
the digest (`f"https://api.pwnedpasswords.com/range/{prefix}"`). -/
def hibpRequestUrl (p : List Char) : List Char := hibpBaseUrl ++ (sha1HexUpper p).take 5

/-- The constant `User-Agent` header value sent with every request. -/
def hibpUserAgent : List Char := "PasswordStrengthAnalyzer".toList

/-! ### Heuristic signals (`_contains_sequence`, `_contains_repetition`,
`_check_substitutions`, `_format_risk_label`) -/

/-- Python `str.strip()`: trim leading and trailing whitespace. -/
def pyStrip (s : List Char) : List Char :=
  ((s.dropWhile Char.isWhitespace).reverse.dropWhile Char.isWhitespace).reverse

/-- The reference alphabets of `_contains_sequence`: lowercase and uppercase
runs, the digit run, and the three keyboard rows. -/
def sequenceAlphabets : List (List Char) :=
  ["abcdefghijklmnopqrstuvwxyz".toList, "ABCDEFGHIJKLMNOPQRSTUVWXYZ".toList,
    "0123456789".toList, "qwertyuiop".toList, "asdfghjkl".toList, "zxcvbnm".toList]

/-- `_contains_sequence`: some three-character window of a reference alphabet
is a substring of the password. -/
def containsSequence (password : List Char) : Bool :=
  sequenceAlphabets.any (fun seq =>
    (List.range (seq.length - 2)).any (fun i =>
      decide (((seq.drop i).take 3) <:+: password)))

/-- `_contains_repetition`: few distinct characters
(`len(set(password)) <= max(1, len(password) // 4)`), or some character
occurring three times in a row. -/
def containsRepetition (password : List Char) : Bool :=
  if password.dedup.length ≤ max 1 (password.length / 4) then true
  else password.dedup.any (fun c => decide ([c, c, c] <:+: password))

/-- The leetspeak substitution table of `_check_substitutions`. -/
def substApply (c : Char) : Char :=
  if c = '@' then 'a' else if c = '0' then 'o' else if c = '1' then 'l'
  else if c = '3' then 'e' else if c = '$' then 's' else if c = '!' then 'i' else c

/-- The common-word dictionary of `_check_substitutions`. -/
def commonWords : List (List Char) :=
  ["password".toList, "admin".toList, "welcome".toList, "dragon".toList,
    "football".toList, "monkey".toList]

/-- `_check_substitutions`: lowercase the password, undo common leetspeak
substitutions, and look for a common word as a substring. -/
def checkSubstitutions (password : List Char) : Bool :=
  let normalized := (password.map Char.toLower).map substApply
  commonWords.any (fun w => decide (w <:+: normalized))

/-- `_format_risk_label`: the label thresholds. -/
def formatRiskLabel (score : ℚ) : String :=
  if score ≥ 0.75 then "high"
  else if score ≥ 0.45 then "medium"
  else "low"

/-- `string.punctuation` (order irrelevant: it is only ever used for
membership tests; the apostrophe, backquote and braces are built by code
point). -/
def pyPunctuation : List Char :=
  "!\"#$%&".toList ++ [Char.ofNat 39] ++ "()*+,-./:;<=>?@[\\]^_".toList ++
    [Char.ofNat 96] ++ [Char.ofNat 123, '|', Char.ofNat 125, '~']

/-- The character-category count of `assess_password`: how many of
{lowercase, uppercase, digit, punctuation} occur in the password. -/
def categoriesCount (password : List Char) : Nat :=
  (if password.any Char.isLower then 1 else 0) +
    (if password.any Char.isUpper then 1 else 0) +
    (if password.any Char.isDigit then 1 else 0) +
    (if password.any (fun c => pyPunctuation.contains c) then 1 else 0)

/-! ### Offline matcher (`_offline_breach_match`) -/

/-- `_offline_breach_match`: the stripped, lowercased password is in the
breached set, or some non-empty entry is a substring of it.  The Python
`set[str]` is modelled as a list queried only through membership. -/
def offlineBreachMatch (password : List Char) (breachedSet : List (List Char)) : Bool :=
  let normalized := (pyStrip password).map Char.toLower
  if normalized ∈ breachedSet then true
  else breachedSet.any (fun entry => !entry.isEmpty && decide (entry <:+: normalized))

/-! ### HIBP response parsing (`_hibp_lookup`, response handling) -/

/-- Python `str.splitlines` restricted to the terminators `\r\n`, `\r` and
`\n` (the exotic Unicode terminators it also recognises cannot occur in the
ASCII protocol bodies modelled here). -/
def splitLinesAux : List Char → List Char → List (List Char)
  | acc, [] => if acc.isEmpty then [] else [acc.reverse]
  | acc, '\r' :: '\n' :: rest => acc.reverse :: splitLinesAux [] rest
  | acc, '\n' :: rest => acc.reverse :: splitLinesAux [] rest
  | acc, '\r' :: rest => acc.reverse :: splitLinesAux [] rest
  | acc, c :: rest => splitLinesAux (c :: acc) rest

/-- `body.splitlines()`. -/
def splitLines (s : List Char) : List (List Char) := splitLinesAux [] s

/-- Decimal digits to a number, most significant first. -/
def digitsToNat (s : List Char) : Nat := s.foldl (fun acc c => 10 * acc + (c.toNat - 48)) 0

/-- Python `int(...)` on an already-stripped string: an optional sign followed
by at least one decimal digit (digit-grouping underscores and non-ASCII digits,
which cannot occur in the protocol bodies modelled here, are not accepted).
`none` models the `ValueError` raised on any other input. -/
def parseInt (s : List Char) : Option Int :=
  match s with
  | '-' :: rest =>
    if !rest.isEmpty && rest.all Char.isDigit then some (-(digitsToNat rest : Int)) else none
  | '+' :: rest =>
    if !rest.isEmpty && rest.all Char.isDigit then some ((digitsToNat rest : Int)) else none
  | _ => if !s.isEmpty && s.all Char.isDigit then some ((digitsToNat s : Int)) else none

/-- The network oracle: a 2xx response with a body, or any
`urllib.error.URLError`/`HTTPError` (timeouts included). -/
inductive NetResponse where
  | success (body : List Char)
  | failure
deriving DecidableEq

/-- The response-parsing loop of `_hibp_lookup`.  Each non-empty line must
split on `:` into exactly two fields (otherwise the tuple unpacking raises
`ValueError`, modelled as `Except.error ()`); when the candidate suffix
matches, the count field is parsed with `int(count.strip())` (raising on
non-decimal input) and `(True, count)` is returned; if no line matches,
`(False, 0)` is returned. -/
def hibpScan (suffix : List Char) : List (List Char) → Except Unit (Bool × Option Int)
  | [] => Except.ok (false, some 0)
  | line :: rest =>
    if line.isEmpty then hibpScan suffix rest
    else
      match List.splitOn ':' line with
      | [cand, cnt] =>
        if (pyStrip cand).map Char.toUpper = suffix then
          match parseInt (pyStrip cnt) with
          | some n => Except.ok (true, some n)
          | none => Except.error ()
        else hibpScan suffix rest
      | _ => Except.error ()

/-- `_hibp_lookup`: on any network failure return `(False, None)`; otherwise
scan the response lines for the 35-character digest suffix. -/
def hibpLookup (net : NetResponse) (password : List Char) : Except Unit (Bool × Option Int) :=
  match net with
  | NetResponse.failure => Except.ok (false, none)
  | NetResponse.success body => hibpScan ((sha1HexUpper password).drop 5) (splitLines body)

/-! ### The assessment engine (`assess_password`) -/

/-- The `PasswordAssessment` dataclass. -/
structure PasswordAssessment where
  password : List Char
  risk_score : ℚ
  label : String
  reasons : List String
  suggestions : List (List Char)
  breached_offline : Bool
  breached_online : Option Bool
  hibp_count : Option Int
deriving DecidableEq

/-- The ways `assess_password` can raise: `ValueError("Password must be
provided")` on empty input, and the parse `ValueError` escaping
`_hibp_lookup`. -/
inductive AssessError where
  | emptyPassword
  | hibpParse
deriving DecidableEq

/-- Length signal: `< 8` chars is +0.4, `8..11` is +0.2, `>= 12` adds
nothing; each case records its reason. -/
def lengthSignal (n : Nat) : ℚ × List String :=
  if n < 8 then (0.4, ["Too short (under 8 characters)"])
  else if n < 12 then (0.2, ["Shorter than recommended (12+ characters)"])
  else (0, ["Length meets recommended minimum"])

/-- Character-variety signal: at most two categories is +0.2. -/
def varietySignal (password : List Char) : ℚ × List String :=
  if categoriesCount password ≤ 2 then (0.2, ["Limited character variety"])
  else (0, ["Uses multiple character categories"])

/-- Sequence signal: +0.15 when the lowercased password contains a
sequential or keyboard pattern. -/
def sequenceSignal (password : List Char) : ℚ × List String :=
  if containsSequence (password.map Char.toLower) then
    (0.15, ["Contains sequential or keyboard patterns"])
  else (0, [])

/-- Repetition signal: +0.15. -/
def repetitionSignal (password : List Char) : ℚ × List String :=
  if containsRepetition password then
    (0.15, ["Contains repeated characters or low entropy"])
  else (0, [])

/-- Substitution signal: +0.15. -/
def substitutionSignal (password : List Char) : ℚ × List String :=
  if checkSubstitutions password then
    (0.15, ["Uses predictable substitutions of common words"])
  else (0, [])

/-- Offline-breach signal: +0.3 when the offline matcher fired. -/
def offlineSignal (breachedOffline : Bool) : ℚ × List String :=
  if breachedOffline then (0.3, ["Matches an offline breached password pattern"])
  else (0, [])

/-- Online signal, from the `_hibp_lookup` result: found is +0.35; checked
and absent (count 0) records the not-found reason; count `None` records the
lookup-unavailable reason.  No increment in the latter two cases. -/
def onlineSignal (breachedOnline : Bool) (hibpCount : Option Int) : ℚ × List String :=
  if breachedOnline then (0.35, ["Found in Have I Been Pwned password corpus"])
  else if hibpCount = some 0 then (0, ["Not found in Have I Been Pwned password corpus"])
  else (0, ["Have I Been Pwned lookup unavailable"])

/-- The pre-clamp score of the six local signals, in evaluation order. -/
def heuristicRaw (breachedSet : List (List Char)) (password : List Char) : ℚ :=
  (lengthSignal password.length).1 + (varietySignal password).1 +
    (sequenceSignal password).1 + (repetitionSignal password).1 +
    (substitutionSignal password).1 +
    (offlineSignal (offlineBreachMatch password breachedSet)).1

/-- The reasons of the six local signals, in evaluation order. -/
def heuristicReasons (breachedSet : List (List Char)) (password : List Char) : List String :=
  (lengthSignal password.length).2 ++ (varietySignal password).2 ++
    (sequenceSignal password).2 ++ (repetitionSignal password).2 ++
    (substitutionSignal password).2 ++
    (offlineSignal (offlineBreachMatch password breachedSet)).2

/-- Assembly of the result: the raw score is clamped with `min(score, 1.0)`
and the label is derived from the clamped score. -/
def mkAssessment (password : List Char) (suggestions : List (List Char))
    (breachedOffline : Bool) (breachedOnline : Option Bool) (hibpCount : Option Int)
    (raw : ℚ) (reasons : List String) : PasswordAssessment :=
  { password := password, risk_score := min raw 1, label := formatRiskLabel (min raw 1),
    reasons := reasons, suggestions := suggestions, breached_offline := breachedOffline,
    breached_online := breachedOnline, hibp_count := hibpCount }

/-- `assess_password`.  The breach corpus (loaded from disk by
`_load_breached_passwords`), the network, and the suggestion randomness
(`_generate_suggestions` draws from `secrets`) are oracle arguments; the
`include_hibp` flag selects the online lookup.  An empty password raises
before any other work; a parse error from `_hibp_lookup` propagates. -/
def assessPassword (breachedSet : List (List Char)) (includeHibp : Bool) (net : NetResponse)
    (suggestions : List (List Char)) (password : List Char) :
    Except AssessError PasswordAssessment :=
  if password = [] then Except.error AssessError.emptyPassword
  else if includeHibp then
    match hibpLookup net password with
    | Except.error _ => Except.error AssessError.hibpParse
    | Except.ok (bo, cnt) =>
      Except.ok (mkAssessment password suggestions (offlineBreachMatch password breachedSet)
        (some bo) cnt
        (heuristicRaw breachedSet password + (onlineSignal bo cnt).1)
        (heuristicReasons breachedSet password ++ (onlineSignal bo cnt).2))
  else
    Except.ok (mkAssessment password suggestions (offlineBreachMatch password breachedSet)
      none none (heuristicRaw breachedSet password) (heuristicReasons breachedSet password))

/-- Well-formedness of one response line, as used by the totality claim about
the parser: empty, or exactly two `:`-separated fields whose count field
parses as a decimal integer. -/
def wfLine (l : List Char) : Bool :=
  l.isEmpty ||
    (match List.splitOn ':' l with
     | [_, cnt] => (parseInt (pyStrip cnt)).isSome
     | _ => false)

/-- Projection used to state concrete facts about successful assessments. -/
def okOr (d : PasswordAssessment) : Except AssessError PasswordAssessment → PasswordAssessment
  | Except.ok a => a
  | Except.error _ => d

/-- Placeholder assessment for the `okOr` projection. -/
def dummyAssessment : PasswordAssessment :=
  { password := [], risk_score := 0, label := "low", reasons := [], suggestions := [],
    breached_offline := false, breached_online := none, hibp_count := none }

/-! ### Helper lemmas -/

theorem hexUpper_hex (n : Nat) : isHexB (hexUpper n) = true :=
  match n with
  | 0 => by decide
  | 1 => by decide
  | 2 => by decide
  | 3 => by decide
  | 4 => by decide
  | 5 => by decide
  | 6 => by decide
  | 7 => by decide
  | 8 => by decide
  | 9 => by decide
  | 10 => by decide
  | 11 => by decide
  | 12 => by decide
  | 13 => by decide
  | 14 => by decide
  | 15 => by decide
  | (_ + 16) => show isHexB '0' = true by decide

theorem wordHex_all_hex (w : Nat) : ∀ c ∈ wordHex w, isHexB c = true := by
  intro c hc
  simp only [wordHex, List.mem_map] at hc
  obtain ⟨i, _, rfl⟩ := hc
  exact hexUpper_hex _

theorem sha1Hex_all_hex (p : List Char) : ∀ c ∈ sha1HexUpper p, isHexB c = true := by
  intro c hc
  unfold sha1HexUpper at hc
  simp only [List.mem_append] at hc
  rcases hc with ((((h | h) | h) | h) | h) <;> exact wordHex_all_hex _ _ h

theorem wordHex_length (w : Nat) : (wordHex w).length = 8 := by
  simp [wordHex]

theorem sha1Hex_length (p : List Char) : (sha1HexUpper p).length = 40 := by
  unfold sha1HexUpper
  simp [wordHex_length]

theorem baseUrl_no_hex : hibpBaseUrl.countP isHexB = 0 := by decide

/-- The 35-character digest suffix cannot occur inside the request URL: the
URL holds at most five hexadecimal characters in total (the transmitted
prefix), while the suffix consists of 35. -/
theorem suffix_not_in_url (p : List Char) :
    ¬ ((sha1HexUpper p).drop 5 <:+: hibpRequestUrl p) := by
  intro hinf
  have hcount : ((sha1HexUpper p).drop 5).countP isHexB ≤ (hibpRequestUrl p).countP isHexB :=
    List.Sublist.countP_le isHexB hinf.sublist
  have h1 : ((sha1HexUpper p).drop 5).countP isHexB = 35 := by
    have hall : ∀ a ∈ (sha1HexUpper p).drop 5, isHexB a :=
      fun a ha => sha1Hex_all_hex p a (List.mem_of_mem_drop ha)
    rw [List.countP_eq_length.mpr hall, List.length_drop, sha1Hex_length]
  have h2 : (hibpRequestUrl p).countP isHexB ≤ 5 := by
    unfold hibpRequestUrl
    rw [List.countP_append, baseUrl_no_hex]
    have htake : ((sha1HexUpper p).take 5).countP isHexB ≤ ((sha1HexUpper p).take 5).length :=
      List.countP_le_length isHexB
    have hlen : ((sha1HexUpper p).take 5).length ≤ 5 := by
      simp [List.length_take]
    omega
  omega

theorem formatRiskLabel_eq (s : ℚ) :
    formatRiskLabel s =
      if s < 0.45 then "low" else if s < 0.75 then "medium" else "high" := by
  unfold formatRiskLabel
  split_ifs <;> first | rfl | linarith

theorem lengthSignal_nonneg (n : Nat) : 0 ≤ (lengthSignal n).1 := by
  unfold lengthSignal
  split_ifs <;> norm_num

theorem varietySignal_nonneg (p : List Char) : 0 ≤ (varietySignal p).1 := by
  unfold varietySignal
  split_ifs <;> norm_num

theorem sequenceSignal_nonneg (p : List Char) : 0 ≤ (sequenceSignal p).1 := by
  unfold sequenceSignal
  split_ifs <;> norm_num

theorem repetitionSignal_nonneg (p : List Char) : 0 ≤ (repetitionSignal p).1 := by
  unfold repetitionSignal
  split_ifs <;> norm_num

theorem substitutionSignal_nonneg (p : List Char) : 0 ≤ (substitutionSignal p).1 := by
  unfold substitutionSignal
  split_ifs <;> norm_num

theorem offlineSignal_nonneg (b : Bool) : 0 ≤ (offlineSignal b).1 := by
  unfold offlineSignal
  split_ifs <;> norm_num

theorem onlineSignal_nonneg (b : Bool) (cnt : Option Int) : 0 ≤ (onlineSignal b cnt).1 := by
  unfold onlineSignal
  split_ifs <;> norm_num

theorem heuristicRaw_nonneg (c : List (List Char)) (p : List Char) : 0 ≤ heuristicRaw c p := by
  unfold heuristicRaw
  have h1 := lengthSignal_nonneg p.length
  have h2 := varietySignal_nonneg p
  have h3 := sequenceSignal_nonneg p
  have h4 := repetitionSignal_nonneg p
  have h5 := substitutionSignal_nonneg p
  have h6 := offlineSignal_nonneg (offlineBreachMatch p c)
  linarith

/-- Every successful assessment comes from one of the two success paths of
`assess_password`, with its fields determined by the signal functions. -/
theorem assess_ok_shape (corpus : List (List Char)) (b : Bool) (net : NetResponse)
    (sugg : List (List Char)) (p : List Char) (a : PasswordAssessment)
    (h : assessPassword corpus b net sugg p = Except.ok a) :
    p ≠ [] ∧
      ((b = false ∧
          a = mkAssessment p sugg (offlineBreachMatch p corpus) none none
                (heuristicRaw corpus p) (heuristicReasons corpus p)) ∨
        (∃ bo cnt, b = true ∧ hibpLookup net p = Except.ok (bo, cnt) ∧
          a = mkAssessment p sugg (offlineBreachMatch p corpus) (some bo) cnt
                (heuristicRaw corpus p + (onlineSignal bo cnt).1)
                (heuristicReasons corpus p ++ (onlineSignal bo cnt).2))) := by
  unfold assessPassword at h
  split at h
  · exact absurd h (by simp)
  next hp =>
    refine ⟨hp, ?_⟩
    split at h
    next hb =>
      split at h
      · exact absurd h (by simp)
      next bo cnt hl =>
        exact Or.inr ⟨bo, cnt, hb, hl, (Except.ok.inj h).symm⟩
    next hb =>
      exact Or.inl ⟨by simpa using hb, (Except.ok.inj h).symm⟩

/-! ### Claims -/

/-- C1: the online breach check transmits only the first five hexadecimal
characters of the password's uppercase SHA-1 digest.  The request URL is
exactly the fixed base followed by the 5-character digest prefix; the
35-character digest suffix never occurs in the URL; and the outbound request
is a function of the digest prefix alone (any two passwords whose digests
share the prefix produce identical requests — the header is a constant, so
the URL is the only password-dependent outbound data). -/
theorem hibp_transmits_only_prefix (p q : List Char)
    (h : (sha1HexUpper q).take 5 = (sha1HexUpper p).take 5) :
    hibpRequestUrl p = hibpBaseUrl ++ (sha1HexUpper p).take 5 ∧
      ((sha1HexUpper p).drop 5).length = 35 ∧
      ¬ ((sha1HexUpper p).drop 5 <:+: hibpRequestUrl p) ∧
      hibpRequestUrl q = hibpRequestUrl p := by
  refine ⟨rfl, ?_, suffix_not_in_url p, ?_⟩
  · rw [List.length_drop, sha1Hex_length]
  · unfold hibpRequestUrl
    rw [h]

theorem hibp_transmits_only_prefix_witness :
    hibpRequestUrl ("password".toList) = hibpBaseUrl ++ (sha1HexUpper ("password".toList)).take 5 ∧
      ((sha1HexUpper ("password".toList)).drop 5).length = 35 ∧
      ¬ ((sha1HexUpper ("password".toList)).drop 5 <:+: hibpRequestUrl ("password".toList)) ∧
      hibpRequestUrl ("password".toList) = hibpRequestUrl ("password".toList) :=
  hibp_transmits_only_prefix ("password".toList) ("password".toList) rfl

/-- C2: every successful assessment has `0 ≤ risk_score ≤ 1`, for any corpus,
any online-check configuration and any network outcome. -/
theorem risk_score_bounded (corpus : List (List Char)) (b : Bool) (net : NetResponse)
    (sugg : List (List Char)) (p : List Char) (a : PasswordAssessment)
    (h : assessPassword corpus b net sugg p = Except.ok a) :
    0 ≤ a.risk_score ∧ a.risk_score ≤ 1 := by
  obtain ⟨hp, hc | hc⟩ := assess_ok_shape corpus b net sugg p a h
  · obtain ⟨hb, rfl⟩ := hc
    simp only [mkAssessment]
    exact ⟨le_min (heuristicRaw_nonneg corpus p) (by norm_num), min_le_right _ _⟩
  · obtain ⟨bo, cnt, hb, hl, rfl⟩ := hc
    simp only [mkAssessment]
    exact ⟨le_min (add_nonneg (heuristicRaw_nonneg corpus p) (onlineSignal_nonneg bo cnt))
      (by norm_num), min_le_right _ _⟩

theorem risk_score_bounded_witness :
    0 ≤ (okOr dummyAssessment
        (assessPassword [] false NetResponse.failure [] ("aaa".toList))).risk_score ∧
      (okOr dummyAssessment
        (assessPassword [] false NetResponse.failure [] ("aaa".toList))).risk_score ≤ 1 :=
  risk_score_bounded [] false NetResponse.failure [] ("aaa".toList)
    (okOr dummyAssessment (assessPassword [] false NetResponse.failure [] ("aaa".toList)))
    (by with_unfolding_all rfl)

/-- C3: the label of every successful assessment is the fixed step function
of its risk score: below 0.45 "low", in [0.45, 0.75) "medium", at or above
0.75 "high". -/
theorem label_step_function (corpus : List (List Char)) (b : Bool) (net : NetResponse)
    (sugg : List (List Char)) (p : List Char) (a : PasswordAssessment)
    (h : assessPassword corpus b net sugg p = Except.ok a) :
    a.label = if a.risk_score < 0.45 then "low"
      else if a.risk_score < 0.75 then "medium" else "high" := by
  obtain ⟨hp, hc | hc⟩ := assess_ok_shape corpus b net sugg p a h
  · obtain ⟨hb, rfl⟩ := hc
    simp only [mkAssessment]
    exact formatRiskLabel_eq _
  · obtain ⟨bo, cnt, hb, hl, rfl⟩ := hc
    simp only [mkAssessment]
    exact formatRiskLabel_eq _

theorem label_step_function_witness :
    (okOr dummyAssessment
        (assessPassword [] false NetResponse.failure [] ("aaa".toList))).label =
      if (okOr dummyAssessment
          (assessPassword [] false NetResponse.failure [] ("aaa".toList))).risk_score < 0.45
      then "low"
      else if (okOr dummyAssessment
          (assessPassword [] false NetResponse.failure [] ("aaa".toList))).risk_score < 0.75
        then "medium" else "high" :=
  label_step_function [] false NetResponse.failure [] ("aaa".toList)
    (okOr dummyAssessment (assessPassword [] false NetResponse.failure [] ("aaa".toList)))
    (by with_unfolding_all rfl)

/-- C4: assessing the empty password fails with the validation error, for
every corpus, online-check flag, network oracle and suggestion oracle — the
result does not depend on any of them, so no corpus load, scoring or network
lookup contributes to it, and no `PasswordAssessment` is produced. -/
theorem empty_password_rejected (corpus : List (List Char)) (b : Bool) (net : NetResponse)
    (sugg : List (List Char)) :
    assessPassword corpus b net sugg [] = Except.error AssessError.emptyPassword := by
  unfold assessPassword
  simp

/-- C5: when the online lookup is requested and the network call fails,
assessment still succeeds, with `breached_online = false`,
`hibp_count = None`, the "lookup unavailable" reason appended after the
heuristic reasons, and no online increment (the clamped score is exactly the
clamped heuristic score).  In particular no exception propagates. -/
theorem lookup_failure_graceful (corpus : List (List Char)) (sugg : List (List Char))
    (p : List Char) (hp : p ≠ []) :
    ∃ a, assessPassword corpus true NetResponse.failure sugg p = Except.ok a ∧
      a.breached_online = some false ∧ a.hibp_count = none ∧
      a.reasons = heuristicReasons corpus p ++ ["Have I Been Pwned lookup unavailable"] ∧
      a.risk_score = min (heuristicRaw corpus p) 1 := by
  refine ⟨mkAssessment p sugg (offlineBreachMatch p corpus) (some false) none
      (heuristicRaw corpus p + (onlineSignal false none).1)
      (heuristicReasons corpus p ++ (onlineSignal false none).2), ?_, rfl, rfl, ?_, ?_⟩
  · unfold assessPassword hibpLookup
    simp [hp]
  · simp [mkAssessment, onlineSignal]
  · simp [mkAssessment, onlineSignal]

theorem lookup_failure_graceful_witness :
    ∃ a, assessPassword [] true NetResponse.failure [] ("aaa".toList) = Except.ok a ∧
      a.breached_online = some false ∧ a.hibp_count = none ∧
      a.reasons = heuristicReasons [] ("aaa".toList) ++ ["Have I Been Pwned lookup unavailable"] ∧
      a.risk_score = min (heuristicRaw [] ("aaa".toList)) 1 :=
  lookup_failure_graceful [] [] ("aaa".toList) (by decide)

/-- C6 counterexample: the offline matcher checks substring containment
against the case-folded *trimmed* password, not the case-folded password.
For the password `" xa"` and the corpus `{" x"}`, the non-empty corpus entry
`" x"` is a substring of the case-folded password `" xa"`, so the claimed
characterisation demands a match, but `_offline_breach_match` returns
`False` (it strips the password to `"xa"` first). -/
theorem offline_match_claim_cex :
    offlineBreachMatch (" xa".toList) [" x".toList] = false ∧
      (" x".toList) ∈ [" x".toList] ∧ (" x".toList) ≠ ([] : List Char) ∧
      (" x".toList) <:+: ((" xa".toList).map Char.toLower) :=
  ⟨by decide, by decide, by decide, by decide⟩

/-- C6 (amended): the offline matcher returns true exactly when the
case-folded, trimmed password equals some corpus entry or some non-empty
corpus entry is a substring of the case-folded, *trimmed* password; whenever
it returns true, every successful assessment has `breached_offline = true`
and carries the offline-breach reason, and the pre-clamp score is exactly
0.3 larger than without the offline match. -/
theorem offline_match_amended (p : List Char) (corpus : List (List Char)) :
    (offlineBreachMatch p corpus = true ↔
      ((pyStrip p).map Char.toLower ∈ corpus ∨
        ∃ e ∈ corpus, e ≠ [] ∧ e <:+: ((pyStrip p).map Char.toLower))) ∧
      (∀ b net sugg a, offlineBreachMatch p corpus = true →
        assessPassword corpus b net sugg p = Except.ok a →
        a.breached_offline = true ∧
          "Matches an offline breached password pattern" ∈ a.reasons) ∧
      (offlineBreachMatch p corpus = true →
        heuristicRaw corpus p = heuristicRaw [] p + 0.3) := by
  refine ⟨?_, ?_, ?_⟩
  · unfold offlineBreachMatch
    by_cases hm : (pyStrip p).map Char.toLower ∈ corpus
    · simp [hm]
    · simp [hm, List.any_eq_true]
  · intro b net sugg a hm h
    obtain ⟨hp, hc | hc⟩ := assess_ok_shape corpus b net sugg p a h
    · obtain ⟨hb, rfl⟩ := hc
      exact ⟨by simp [mkAssessment, hm],
        by simp [mkAssessment, heuristicReasons, offlineSignal, hm]⟩
    · obtain ⟨bo, cnt, hb, hl, rfl⟩ := hc
      exact ⟨by simp [mkAssessment, hm],
        by simp [mkAssessment, heuristicReasons, offlineSignal, hm]⟩
  · intro hm
    have h0 : offlineBreachMatch p [] = false := by simp [offlineBreachMatch]
    unfold heuristicRaw
    rw [hm, h0]
    simp [offlineSignal]

theorem offline_match_amended_witness :
    offlineBreachMatch ("admin".toList) ["admin".toList] = true ∧
      ((okOr dummyAssessment
          (assessPassword ["admin".toList] false NetResponse.failure []
            ("admin".toList))).breached_offline = true ∧
        "Matches an offline breached password pattern" ∈
          (okOr dummyAssessment
            (assessPassword ["admin".toList] false NetResponse.failure []
              ("admin".toList))).reasons) ∧
      heuristicRaw ["admin".toList] ("admin".toList) = heuristicRaw [] ("admin".toList) + 0.3 :=
  ⟨by decide,
    (offline_match_amended ("admin".toList) ["admin".toList]).2.1 false NetResponse.failure []
      (okOr dummyAssessment
        (assessPassword ["admin".toList] false NetResponse.failure [] ("admin".toList)))
      (by decide) (by with_unfolding_all rfl),
    (offline_match_amended ("admin".toList) ["admin".toList]).2.2 (by decide)⟩

/-- C7 counterexample: `"P@ssw0rd123"` has 11 characters, not 12, so the
length signal records "Shorter than recommended (12+ characters)"; the
reason "Length meets recommended minimum" demanded by the claim does not
occur in the assessment's reasons. -/
theorem scenario_password123_cex :
    ("P@ssw0rd123".toList).length = 11 ∧
      (okOr dummyAssessment
          (assessPassword [] false NetResponse.failure [] ("P@ssw0rd123".toList))).reasons =
        ["Shorter than recommended (12+ characters)", "Uses multiple character categories",
          "Contains sequential or keyboard patterns",
          "Uses predictable substitutions of common words"] ∧
      "Length meets recommended minimum" ∉
        (okOr dummyAssessment
          (assessPassword [] false NetResponse.failure [] ("P@ssw0rd123".toList))).reasons := by
  refine ⟨by decide, ?_, ?_⟩ <;> with_unfolding_all decide

/-- C7 (amended): for `"P@ssw0rd123"` (11 characters), with an empty corpus
and the online check disabled, the reasons include "Shorter than recommended
(12+ characters)", "Uses multiple character categories" and "Uses predictable
substitutions of common words", and the risk score equals the sum of the
increments of the signals that fired (length 0.2, sequence 0.15,
substitution 0.15 — below the clamp). -/
theorem scenario_password123_amended :
    ∃ a, assessPassword [] false NetResponse.failure [] ("P@ssw0rd123".toList) = Except.ok a ∧
      "Shorter than recommended (12+ characters)" ∈ a.reasons ∧
      "Uses multiple character categories" ∈ a.reasons ∧
      "Uses predictable substitutions of common words" ∈ a.reasons ∧
      a.risk_score = 0.2 + 0.15 + 0.15 := by
  refine ⟨okOr dummyAssessment
      (assessPassword [] false NetResponse.failure [] ("P@ssw0rd123".toList)),
    by with_unfolding_all rfl, ?_, ?_, ?_, ?_⟩ <;> with_unfolding_all decide

theorem label_of_ge (s : ℚ) (hs : 0.45 ≤ s) :
    formatRiskLabel s = "medium" ∨ formatRiskLabel s = "high" := by
  unfold formatRiskLabel
  split_ifs with h1
  · exact Or.inr rfl
  · exact Or.inl rfl

/-- C8: for the password `"aaa"`, the too-short signal contributes +0.4 and
the repetition signal +0.15, both reasons are present, and every successful
assessment (any corpus, any online outcome) has risk score at least 0.45 and
label "medium" or "high". -/
theorem scenario_aaa (corpus : List (List Char)) (b : Bool) (net : NetResponse)
    (sugg : List (List Char)) (a : PasswordAssessment)
    (h : assessPassword corpus b net sugg ("aaa".toList) = Except.ok a) :
    (lengthSignal (("aaa".toList).length)).1 = 0.4 ∧
      (repetitionSignal ("aaa".toList)).1 = 0.15 ∧
      "Too short (under 8 characters)" ∈ a.reasons ∧
      "Contains repeated characters or low entropy" ∈ a.reasons ∧
      0.45 ≤ a.risk_score ∧
      (a.label = "medium" ∨ a.label = "high") := by
  have hlen : (lengthSignal (("aaa".toList).length)).1 = 0.4 := by with_unfolding_all decide
  have hrep : (repetitionSignal ("aaa".toList)).1 = 0.15 := by with_unfolding_all decide
  have hvar : (varietySignal ("aaa".toList)).1 = 0.2 := by with_unfolding_all decide
  have hseq : (sequenceSignal ("aaa".toList)).1 = 0 := by with_unfolding_all decide
  have hsub : (substitutionSignal ("aaa".toList)).1 = 0 := by with_unfolding_all decide
  have hlr : (lengthSignal (("aaa".toList).length)).2 = ["Too short (under 8 characters)"] := by
    with_unfolding_all decide
  have hrr : (repetitionSignal ("aaa".toList)).2 =
      ["Contains repeated characters or low entropy"] := by
    with_unfolding_all decide
  have hraw : (0.75 : ℚ) ≤ heuristicRaw corpus ("aaa".toList) := by
    unfold heuristicRaw
    have hoff := offlineSignal_nonneg (offlineBreachMatch ("aaa".toList) corpus)
    rw [hlen, hrep, hvar, hseq, hsub]
    linarith
  have hmem1 : "Too short (under 8 characters)" ∈ heuristicReasons corpus ("aaa".toList) := by
    unfold heuristicReasons
    rw [hlr]
    simp
  have hmem2 : "Contains repeated characters or low entropy" ∈
      heuristicReasons corpus ("aaa".toList) := by
    unfold heuristicReasons
    rw [hrr]
    simp
  obtain ⟨hp, hc | hc⟩ := assess_ok_shape corpus b net sugg ("aaa".toList) a h
  · obtain ⟨hb, rfl⟩ := hc
    have hs : (0.45 : ℚ) ≤ min (heuristicRaw corpus ("aaa".toList)) 1 :=
      le_min (by linarith) (by norm_num)
    exact ⟨hlen, hrep, hmem1, hmem2, hs, label_of_ge _ hs⟩
  · obtain ⟨bo, cnt, hb, hl, rfl⟩ := hc
    have honl := onlineSignal_nonneg bo cnt
    have hs : (0.45 : ℚ) ≤
        min (heuristicRaw corpus ("aaa".toList) + (onlineSignal bo cnt).1) 1 :=
      le_min (by linarith) (by norm_num)
    exact ⟨hlen, hrep, List.mem_append_left _ hmem1, List.mem_append_left _ hmem2,
      hs, label_of_ge _ hs⟩

theorem scenario_aaa_witness :
    (lengthSignal (("aaa".toList).length)).1 = 0.4 ∧
      (repetitionSignal ("aaa".toList)).1 = 0.15 ∧
      "Too short (under 8 characters)" ∈
        (okOr dummyAssessment
          (assessPassword [] false NetResponse.failure [] ("aaa".toList))).reasons ∧
      "Contains repeated characters or low entropy" ∈
        (okOr dummyAssessment
          (assessPassword [] false NetResponse.failure [] ("aaa".toList))).reasons ∧
      0.45 ≤ (okOr dummyAssessment
          (assessPassword [] false NetResponse.failure [] ("aaa".toList))).risk_score ∧
      ((okOr dummyAssessment
          (assessPassword [] false NetResponse.failure [] ("aaa".toList))).label = "medium" ∨
        (okOr dummyAssessment
          (assessPassword [] false NetResponse.failure [] ("aaa".toList))).label = "high") :=
  scenario_aaa [] false NetResponse.failure []
    (okOr dummyAssessment (assessPassword [] false NetResponse.failure [] ("aaa".toList)))
    (by with_unfolding_all rfl)

theorem offlineBreachMatch_congr (p : List Char) (c₁ c₂ : List (List Char))
    (hset : ∀ x, x ∈ c₁ ↔ x ∈ c₂) :
    offlineBreachMatch p c₁ = offlineBreachMatch p c₂ := by
  unfold offlineBreachMatch
  by_cases hm : (pyStrip p).map Char.toLower ∈ c₁
  · simp [hm, (hset _).mp hm]
  · have hm2 : (pyStrip p).map Char.toLower ∉ c₂ := fun hx => hm ((hset _).mpr hx)
    simp only [hm, hm2, if_false, reduceIte]
    rw [Bool.eq_iff_iff]
    simp only [List.any_eq_true]
    constructor
    · rintro ⟨e, he, hf⟩
      exact ⟨e, (hset e).mp he, hf⟩
    · rintro ⟨e, he, hf⟩
      exact ⟨e, (hset e).mpr he, hf⟩

/-- C9: the risk score and label of an assessment are a function of the
password, the corpus contents (membership only — not its representation) and
the online configuration and outcome; in particular they do not depend on
the randomness that produces the suggestions. -/
theorem assessment_deterministic (p : List Char) (c₁ c₂ : List (List Char))
    (hset : ∀ x, x ∈ c₁ ↔ x ∈ c₂) (b : Bool) (net : NetResponse)
    (s₁ s₂ : List (List Char)) :
    (assessPassword c₁ b net s₁ p).map (fun a => (a.risk_score, a.label)) =
      (assessPassword c₂ b net s₂ p).map (fun a => (a.risk_score, a.label)) := by
  have hom := offlineBreachMatch_congr p c₁ c₂ hset
  have hr : heuristicRaw c₁ p = heuristicRaw c₂ p := by
    unfold heuristicRaw
    rw [hom]
  unfold assessPassword
  split
  · rfl
  · split
    · cases hl : hibpLookup net p with
      | error e => simp [hl, Except.map]
      | ok val =>
        obtain ⟨bo, cnt⟩ := val
        simp [hl, Except.map, mkAssessment, hr]
    · simp [Except.map, mkAssessment, hr]

theorem assessment_deterministic_witness :
    (assessPassword [] false NetResponse.failure [] ("aaa".toList)).map
        (fun a => (a.risk_score, a.label)) =
      (assessPassword [] false NetResponse.failure ["x".toList] ("aaa".toList)).map
        (fun a => (a.risk_score, a.label)) :=
  assessment_deterministic ("aaa".toList) [] [] (fun _ => Iff.rfl) false NetResponse.failure
    [] ["x".toList]

theorem hibpScan_ok_of_wf (suffix : List Char) (lines : List (List Char))
    (h : ∀ l ∈ lines, wfLine l = true) :
    ∃ r, hibpScan suffix lines = Except.ok r := by
  induction lines with
  | nil => exact ⟨(false, some 0), rfl⟩
  | cons l rest ih =>
    obtain ⟨r, hr⟩ := ih (fun x hx => h x (List.mem_cons_of_mem l hx))
    have hl := h l (List.mem_cons_self l rest)
    by_cases he : l.isEmpty
    · exact ⟨r, by simp [hibpScan, he, hr]⟩
    · unfold wfLine at hl
      rw [Bool.or_eq_true] at hl
      rcases hl with hl | hl
      · exact absurd hl (by simp [he])
      · rcases hsp : List.splitOn ':' l with _ | ⟨cand, tail⟩
        · rw [hsp] at hl
          simp at hl
        · rcases tail with _ | ⟨cnt, tail2⟩
          · rw [hsp] at hl
            simp at hl
          · rcases tail2 with _ | ⟨x, tail3⟩
            · rw [hsp] at hl
              by_cases hmatch : (pyStrip cand).map Char.toUpper = suffix
              · obtain ⟨n, hn⟩ := Option.isSome_iff_exists.mp (by simpa using hl)
                exact ⟨(true, some n), by simp [hibpScan, he, hsp, hmatch, hn]⟩
              · exact ⟨r, by simp [hibpScan, he, hsp, hmatch, hr]⟩
            · rw [hsp] at hl
              simp at hl

/-- C10 counterexample: the body `"0:x"` is a 200 response with one
non-empty line violating the claimed shape (its count field `"x"` is not a
decimal integer), yet the lookup completes without raising: the line's
suffix `"0"` differs from the password's digest suffix, so the count field
is never parsed and the scan returns `(False, 0)`. -/
theorem parse_totality_cex :
    ("0:x".toList) ∈ splitLines ("0:x".toList) ∧
      ("0:x".toList) ≠ ([] : List Char) ∧
      wfLine ("0:x".toList) = false ∧
      hibpLookup (NetResponse.success ("0:x".toList)) ("password".toList) =
        Except.ok (false, some 0) :=
  ⟨by decide, by decide, by decide, by rfl⟩

/-- C10 (amended): on a response whose non-empty lines all consist of a
suffix and a decimal count separated by exactly one `:`, the lookup
completes without raising.  A malformed line raises only when it is reached:
a line that does not split into exactly two fields raises if no earlier line
matched the digest suffix, and a two-field line whose suffix matches but
whose count is not decimal raises; a raising lookup makes `assess_password`
fail with the propagated parse error. -/
theorem parse_totality_amended :
    (∀ p body, (∀ l ∈ splitLines body, wfLine l = true) →
      ∃ r, hibpLookup (NetResponse.success body) p = Except.ok r) ∧
      (∀ suffix l rest, l ≠ [] → (List.splitOn ':' l).length ≠ 2 →
        hibpScan suffix (l :: rest) = Except.error ()) ∧
      (∀ suffix l rest cand cnt, List.splitOn ':' l = [cand, cnt] →
        (pyStrip cand).map Char.toUpper = suffix → parseInt (pyStrip cnt) = none →
        hibpScan suffix (l :: rest) = Except.error ()) ∧
      (∀ corpus sugg p body, p ≠ [] →
        hibpLookup (NetResponse.success body) p = Except.error () →
        assessPassword corpus true (NetResponse.success body) sugg p =
          Except.error AssessError.hibpParse) := by
  refine ⟨?_, ?_, ?_, ?_⟩
  · intro p body h
    exact hibpScan_ok_of_wf _ _ h
  · intro suffix l rest hne hsp
    have he : l.isEmpty = false := by simpa using hne
    rcases hs : List.splitOn ':' l with _ | ⟨cand, tail⟩
    · simp [hibpScan, he, hs]
    · rcases tail with _ | ⟨cnt, tail2⟩
      · simp [hibpScan, he, hs]
      · rcases tail2 with _ | ⟨x, tail3⟩
        · rw [hs] at hsp
          simp at hsp
        · simp [hibpScan, he, hs]
  · intro suffix l rest cand cnt hsp hmatch hparse
    have hne : l ≠ [] := by
      intro hnil
      rw [hnil] at hsp
      simp [List.splitOn] at hsp
    have he : l.isEmpty = false := by simpa using hne
    simp [hibpScan, he, hsp, hmatch, hparse]
  · intro corpus sugg p body hp hl
    unfold assessPassword
    simp [hp, hl]

theorem parse_totality_amended_witness :
    (∃ r, hibpLookup (NetResponse.success ("AB:5".toList)) ("password".toList) = Except.ok r) ∧
      hibpScan ("Z".toList) ["x".toList] = Except.error () ∧
      hibpScan ("X".toList) ["X:y".toList] = Except.error () ∧
      assessPassword [] true (NetResponse.success ("bad".toList)) [] ("aaa".toList) =
        Except.error AssessError.hibpParse :=
  ⟨parse_totality_amended.1 ("password".toList) ("AB:5".toList) (by decide),
    parse_totality_amended.2.1 ("Z".toList) ("x".toList) [] (by decide) (by decide),
    parse_totality_amended.2.2.1 ("X".toList) ("X:y".toList) [] ("X".toList) ("y".toList)
      (by decide) (by decide) (by decide),
    parse_totality_amended.2.2.2 [] [] ("aaa".toList) ("bad".toList) (by decide) (by rfl)⟩
